import Mathlib

/-!
Shallow embedding of the three-stage LLM pipeline of `src/app.js`
(dreamflowCommandForFlutterFlow).

Modelling conventions:
* JavaScript strings are Lean `String`s; the string operations the code uses
  (`includes`, `trim`, `toLowerCase`) are modelled over the character list
  (`String.toList`), since JS strings are sequences of code units.
* A provider HTTP call (`fetch` + `response.json()`) is abstracted as a
  `FetchOutcome`: either the fetch/parse threw (transport failure), or it
  produced an `HttpResponse` carrying the status, the parsed JSON body and
  the raw body text (used by the error branches).
* `throw new Error(msg)` is modelled as `Except.error ⟨msg⟩`; a JS function
  that can return `undefined` returns `Option String`, `none` standing for
  `undefined`.  So an adapter has type `Except JsError (Option String)`.
* The mutable module-level `pipelineState` becomes an explicit
  `PipelineState` value threaded through `runThinkingPipeline`.
* DOM reads (`document.getElementById(...)`) become fields of an explicit
  `Env` record (user input, selected model, the `confirm()` answer), and the
  network becomes per-stage response functions in `Env`.
-/

/-- JS `haystack.includes(needle)` on character lists: `true` iff `pat`
occurs contiguously in `s` (the empty pattern is always found). -/
def jsStringIncludes : List Char → List Char → Bool
  | [], pat => pat.isEmpty
  | c :: rest, pat => pat.isPrefixOf (c :: rest) || jsStringIncludes rest pat

/-- JS `s.includes(pat)` on strings. -/
def jsIncludes (s pat : String) : Bool :=
  jsStringIncludes s.toList pat.toList

/-- JS `s.trim()`: strip leading and trailing whitespace (as a char list). -/
def jsTrim (s : String) : List Char :=
  ((s.toList.dropWhile Char.isWhitespace).reverse.dropWhile Char.isWhitespace).reverse

/-- JS `s.toLowerCase()` modelled character-wise. -/
def jsToLower (s : String) : List Char :=
  s.toList.map Char.toLower

-- ## JSON values (the parsed `response.json()` bodies)

inductive Json where
  | str : String → Json
  | num : Int → Json
  | bool : Bool → Json
  | null : Json
  | arr : List Json → Json
  | obj : List (String × Json) → Json

/-- Field lookup in a JSON object literal (first binding wins, as in JS). -/
def lookupField : List (String × Json) → String → Option Json
  | [], _ => none
  | (k', v) :: rest, k => if k' = k then some v else lookupField rest k

/-- JS optional member access `data?.k`: `undefined` (`none`) unless `data`
is an object with field `k`. -/
def Json.getField? : Json → String → Option Json
  | .obj fields, k => lookupField fields k
  | _, _ => none

/-- JS optional index access `data?.[i]`: `undefined` unless an array with
an `i`-th element. -/
def Json.item? : Json → Nat → Option Json
  | .arr xs, i => xs.get? i
  | _, _ => none

/-- The textual payload, when the JSON value is a string. -/
def Json.asString? : Json → Option String
  | .str s => some s
  | _ => none

-- ## Errors, HTTP responses, adapter results

/-- A thrown JS `Error`, identified by its `message`. -/
structure JsError where
  message : String
deriving DecidableEq, Repr

/-- The observable part of a `fetch` response: `ok`/`status`, the parsed
JSON body (`await response.json()`) and the raw text (`await response.text()`,
read by the non-2xx branches). -/
structure HttpResponse where
  ok : Bool
  status : Nat
  body : Json
  bodyText : String

/-- One network attempt either throws (network error / JSON parse error,
caught by the adapter's `catch`) or yields a response. -/
inductive FetchOutcome where
  | throw : String → FetchOutcome
  | response : HttpResponse → FetchOutcome

/-- An adapter call result: a thrown `JsError`, or a returned value which may
be `undefined` (`none`). -/
abbrev CallResult := Except JsError (Option String)

-- ## Model configuration constants (src/app.js lines 8-10)

def PROMPT_ARCHITECT_MODEL : String := "gemini-3-flash-preview"

def CODE_DISSECTOR_MODEL : String := "gemini-3-flash-preview"

def FALLBACK_MODEL : String := "gemini-2.5-flash-preview-09-2025"

-- ## Provider adapters (src/app.js lines 361-526)

/-- `checkConnection` (lines 361-370): reports `false` iff the Gemini key is
absent (empty).  Its result is ignored by every caller in the source. -/
def checkConnection (geminiApiKey : String) : Bool :=
  !(geminiApiKey == "")

/-- `data.candidates?.[0]?.content?.parts?.[0]?.text` (line 404). -/
def geminiExtract (data : Json) : Option String :=
  ((((((data.getField? "candidates").bind (Json.item? · 0)).bind
      (Json.getField? · "content")).bind
      (Json.getField? · "parts")).bind (Json.item? · 0)).bind
      (Json.getField? · "text")).bind Json.asString?

/-- `data.content?.[0]?.text` (line 462). -/
def claudeExtract (data : Json) : Option String :=
  (((data.getField? "content").bind (Json.item? · 0)).bind
      (Json.getField? · "text")).bind Json.asString?

/-- `data.choices?.[0]?.message?.content` (line 521). -/
def openaiExtract (data : Json) : Option String :=
  ((((data.getField? "choices").bind (Json.item? · 0)).bind
      (Json.getField? · "message")).bind
      (Json.getField? · "content")).bind Json.asString?

/-- One attempt of the body of `callGemini`'s `try` block (lines 387-404):
a thrown fetch propagates, a non-ok response throws
`Gemini API failed: <status>`, an ok response returns the extracted text
(possibly `undefined`). -/
def geminiAttempt (net : String → FetchOutcome) (modelId : String) : CallResult :=
  match net modelId with
  | .throw m => .error ⟨m⟩
  | .response r =>
    if r.ok then .ok (geminiExtract r.body)
    else .error ⟨"Gemini API failed: " ++ toString r.status⟩

/-- `callGemini` (lines 372-413): on any caught error, retry once with
`FALLBACK_MODEL` unless already using it; the recursion is well-founded
because the retry's model id is `FALLBACK_MODEL`. -/
def callGemini (net : String → FetchOutcome) (modelId : String) : CallResult :=
  match geminiAttempt net modelId with
  | .ok v => .ok v
  | .error e =>
    if _h : modelId = FALLBACK_MODEL then .error e
    else callGemini net FALLBACK_MODEL
termination_by if modelId = FALLBACK_MODEL then 0 else 1
decreasing_by simp_all

/-- Number of network attempts made by `callGemini` for a given call site. -/
def callGeminiAttempts (net : String → FetchOutcome) (modelId : String) : Nat :=
  match geminiAttempt net modelId with
  | .ok _ => 1
  | .error _ =>
    if _h : modelId = FALLBACK_MODEL then 1
    else 1 + callGeminiAttempts net FALLBACK_MODEL
termination_by if modelId = FALLBACK_MODEL then 0 else 1
decreasing_by simp_all

/-- `callClaude` (lines 415-467): missing key throws before any fetch; a
non-ok response is classified by body text (image/media), then 401, then a
generic failure; ok responses return the extracted text. -/
def callClaude (anthropicApiKey : String) (net : FetchOutcome) : CallResult :=
  if anthropicApiKey = "" then .error ⟨"Anthropic API key not found"⟩
  else
    match net with
    | .throw m => .error ⟨m⟩
    | .response r =>
      if r.ok then .ok (claudeExtract r.body)
      else if jsIncludes r.bodyText "image" || jsIncludes r.bodyText "media" then
        .error ⟨"Claude API error: This model doesn't support image input. Please use Gemini 3.0 Pro for image-based requests."⟩
      else if r.status = 401 then
        .error ⟨"Claude API authentication failed. Please check your Anthropic API key in the .env file."⟩
      else .error ⟨"Claude API failed: " ++ toString r.status⟩

/-- Number of fetches issued by `callClaude`: none when the key is absent. -/
def callClaudeAttempts (anthropicApiKey : String) : Nat :=
  if anthropicApiKey = "" then 0 else 1

/-- `callOpenAI` (lines 469-526), same shape as `callClaude` with the
image/vision/media markers. -/
def callOpenAI (openaiApiKey : String) (net : FetchOutcome) : CallResult :=
  if openaiApiKey = "" then .error ⟨"OpenAI API key not found"⟩
  else
    match net with
    | .throw m => .error ⟨m⟩
    | .response r =>
      if r.ok then .ok (openaiExtract r.body)
      else if jsIncludes r.bodyText "image" || jsIncludes r.bodyText "vision" ||
          jsIncludes r.bodyText "media" then
        .error ⟨"OpenAI API error: This model doesn't support image input. Please use Gemini 3.0 Pro for image-based requests."⟩
      else if r.status = 401 then
        .error ⟨"OpenAI API authentication failed. Please check your OpenAI API key in the .env file."⟩
      else .error ⟨"OpenAI API failed: " ++ toString r.status⟩

/-- Number of fetches issued by `callOpenAI`: none when the key is absent. -/
def callOpenAIAttempts (openaiApiKey : String) : Nat :=
  if openaiApiKey = "" then 0 else 1

-- ## Stage functions (src/app.js lines 530-1004)

/-- `runPromptArchitect` (lines 530-678): Stage 1 calls Gemini with
`PROMPT_ARCHITECT_MODEL`; its `catch` only logs and rethrows. -/
def runPromptArchitect (net : String → FetchOutcome) : CallResult :=
  callGemini net PROMPT_ARCHITECT_MODEL

/-- The `switch (selectedModel)` of `runCodeGenerator` (lines 814-829):
the primary provider attempt for Stage 2.  Unrecognized values fall through
to the default Gemini case, as in the source. -/
def stage2Primary (anthropicApiKey openaiApiKey : String)
    (claudeNet openaiNet : FetchOutcome) (geminiNet : String → FetchOutcome)
    (selectedModel : String) : CallResult :=
  match selectedModel with
  | "claude-4.5-opus" => callClaude anthropicApiKey claudeNet
  | "gpt-5.2-codex" => callOpenAI openaiApiKey openaiNet
  | _ => callGemini geminiNet "gemini-3.0-pro-preview"

/-- The cross-provider fallback trigger of `runCodeGenerator`
(lines 835-838): `error.message.includes("authentication") ||
error.message.includes("401")`. -/
def isAuthError (e : JsError) : Bool :=
  jsIncludes e.message "authentication" || jsIncludes e.message "401"

/-- `runCodeGenerator` (lines 680-860): Stage 2.  On a caught error whose
message marks an authentication problem, retry once against Gemini's
`gemini-3.0-pro-preview`; if that also fails, throw the combined
`All models failed` error; any other error rethrows unchanged. -/
def runCodeGenerator (anthropicApiKey openaiApiKey : String)
    (claudeNet openaiNet : FetchOutcome) (geminiNet : String → FetchOutcome)
    (selectedModel : String) : CallResult :=
  match stage2Primary anthropicApiKey openaiApiKey claudeNet openaiNet geminiNet selectedModel with
  | .ok v => .ok v
  | .error e =>
    if isAuthError e then
      match callGemini geminiNet "gemini-3.0-pro-preview" with
      | .ok v => .ok v
      | .error fe =>
        .error ⟨"All models failed. Original error: " ++ e.message ++
          ". Fallback error: " ++ fe.message⟩
    else .error e

/-- Number of times `runCodeGenerator` enters its cross-provider fallback
branch (i.e. calls `callGemini` after a failed primary attempt). -/
def runCodeGeneratorFallbackCalls (anthropicApiKey openaiApiKey : String)
    (claudeNet openaiNet : FetchOutcome) (geminiNet : String → FetchOutcome)
    (selectedModel : String) : Nat :=
  match stage2Primary anthropicApiKey openaiApiKey claudeNet openaiNet geminiNet selectedModel with
  | .ok _ => 0
  | .error e => if isAuthError e then 1 else 0

/-- `runCodeDissector` (lines 862-1004): Stage 3 calls Gemini with
`CODE_DISSECTOR_MODEL`; its `catch` only logs and rethrows. -/
def runCodeDissector (net : String → FetchOutcome) : CallResult :=
  callGemini net CODE_DISSECTOR_MODEL

-- ## Pipeline orchestrator (src/app.js lines 350-357, 1356-1510)

/-- The mutable `pipelineState` object (lines 351-357). -/
structure PipelineState where
  step1Result : Option String
  step2Result : Option String
  step3Result : Option String
  currentStep : Nat
  isRunning : Bool
deriving DecidableEq, Repr

/-- The initial `pipelineState` (lines 351-357). -/
def initialPipelineState : PipelineState :=
  { step1Result := none, step2Result := none, step3Result := none,
    currentStep := 0, isRunning := false }

/-- The environment a `runThinkingPipeline` invocation reads: the DOM inputs
(`pipeline-input` value, `code-generator-model` value, the `confirm()`
answer), the stored per-provider keys, and one response function per
stage-level network interaction. -/
structure Env where
  userInput : String
  selectedModel : String
  geminiKey : String
  anthropicKey : String
  openaiKey : String
  confirmProceed : Bool
  stage1Net : String → FetchOutcome
  claudeNet : FetchOutcome
  openaiNet : FetchOutcome
  stage2GeminiNet : String → FetchOutcome
  stage3Net : String → FetchOutcome

/-- The image-keyword heuristic of `runThinkingPipeline` (lines 1369-1379):
the lowercased input is searched for each marker.  (The final
`includes("Screenshot")` test is taken verbatim from the source; it can
never hold on a lowercased string.) -/
def mentionsImage (userInput : String) : Bool :=
  let lower := jsToLower userInput
  jsStringIncludes lower "screenshot".toList ||
  jsStringIncludes lower "image".toList ||
  jsStringIncludes lower "picture".toList ||
  jsStringIncludes lower ".png".toList ||
  jsStringIncludes lower ".jpg".toList ||
  jsStringIncludes lower ".jpeg".toList ||
  jsStringIncludes lower ".gif".toList ||
  jsStringIncludes lower "Screenshot".toList

/-- The abort condition of the image confirmation gate (lines 1369-1388):
a non-default model, an image-flavoured input, and the user declining. -/
def imageGateAborts (env : Env) : Prop :=
  env.selectedModel ≠ "gemini-3.0-pro" ∧ mentionsImage env.userInput = true ∧
    env.confirmProceed = false

instance (env : Env) : Decidable (imageGateAborts env) := by
  unfold imageGateAborts; infer_instance

/-- `runThinkingPipeline` (lines 1356-1510) as a state transformer.
Guards in source order: the re-entrancy check, the empty-input check, the
image confirmation gate; then the state is reset and the three stages run
in sequence, each assigning its `stepNResult` on success.  The `catch`
block only updates the DOM; the `finally` block clears `isRunning`. -/
def runThinkingPipeline (env : Env) (s : PipelineState) : PipelineState :=
  if s.isRunning = true then s
  else if jsTrim env.userInput = [] then s
  else if imageGateAborts env then s
  else
    let s0 : PipelineState :=
      { s with isRunning := true, step1Result := none, step2Result := none,
               step3Result := none }
    let sEnd : PipelineState :=
      match runPromptArchitect env.stage1Net with
      | .error _ => s0
      | .ok r1 =>
        let s1 := { s0 with step1Result := r1 }
        match runCodeGenerator env.anthropicKey env.openaiKey env.claudeNet
            env.openaiNet env.stage2GeminiNet env.selectedModel with
        | .error _ => s1
        | .ok r2 =>
          let s2 := { s1 with step2Result := r2 }
          match runCodeDissector env.stage3Net with
          | .error _ => s2
          | .ok r3 => { s2 with step3Result := r3 }
    { sEnd with isRunning := false }

/-- The step-attribution heuristic of the pipeline's `catch` block
(lines 1455-1465): a message mentioning Claude/OpenAI/Code Generator maps
to step 2, one mentioning Code Dissector to step 3, anything else to the
default step 1. -/
def determineErrorStep (msg : String) : Nat :=
  if jsIncludes msg "Claude" || jsIncludes msg "OpenAI" ||
      jsIncludes msg "Code Generator" then 2
  else if jsIncludes msg "Code Dissector" then 3
  else 1

/-- Which step the `catch` block of `runThinkingPipeline` blames, `none`
when the run does not start or no stage throws.  Mirrors the control flow
of `runThinkingPipeline`. -/
def runThinkingPipelineErrorStep (env : Env) (s : PipelineState) : Option Nat :=
  if s.isRunning = true then none
  else if jsTrim env.userInput = [] then none
  else if imageGateAborts env then none
  else
    match runPromptArchitect env.stage1Net with
    | .error e => some (determineErrorStep e.message)
    | .ok _ =>
      match runCodeGenerator env.anthropicKey env.openaiKey env.claudeNet
          env.openaiNet env.stage2GeminiNet env.selectedModel with
      | .error e => some (determineErrorStep e.message)
      | .ok _ =>
        match runCodeDissector env.stage3Net with
        | .error e => some (determineErrorStep e.message)
        | .ok _ => none

/-- Number of Stage-1 network attempts a `runThinkingPipeline` invocation
issues.  Mirrors the guards of `runThinkingPipeline`; once the run starts,
Stage 1 always fires `callGemini` (there is no credential check on the way). -/
def runThinkingPipelineStage1Attempts (env : Env) (s : PipelineState) : Nat :=
  if s.isRunning = true then 0
  else if jsTrim env.userInput = [] then 0
  else if imageGateAborts env then 0
  else callGeminiAttempts env.stage1Net PROMPT_ARCHITECT_MODEL

-- ## Base64 helpers (src/app.js lines 129-145)
-- `arrayBufferToBase64` builds a binary string whose code units are exactly
-- the buffer's bytes (`String.fromCharCode` per byte) and applies the
-- browser primitive `btoa`; `base64ToArrayBuffer` applies `atob` and reads
-- the code units back (`charCodeAt` per position).  Binary strings are
-- modelled as code-unit lists (`List Nat`), and the platform primitives
-- `btoa`/`atob` by their specified RFC 4648 base64 behaviour.

/-- The base64 alphabet: code of the character for sextet `n < 64`. -/
def sextetChar (n : Nat) : Nat :=
  if n < 26 then 65 + n
  else if n < 52 then 97 + (n - 26)
  else if n < 62 then 48 + (n - 52)
  else if n = 62 then 43
  else 47

/-- Inverse alphabet lookup: the sextet encoded by character code `c`. -/
def charSextet (c : Nat) : Option Nat :=
  if 65 ≤ c ∧ c ≤ 90 then some (c - 65)
  else if 97 ≤ c ∧ c ≤ 122 then some (26 + (c - 97))
  else if 48 ≤ c ∧ c ≤ 57 then some (52 + (c - 48))
  else if c = 43 then some 62
  else if c = 47 then some 63
  else none

/-- Browser `btoa`: base64-encode a binary string (code units < 256),
three bytes to four characters, padding with `=` (code 61). -/
def btoa : List Nat → List Nat
  | [] => []
  | [x] => [sextetChar (x / 4), sextetChar (x % 4 * 16), 61, 61]
  | [x, y] =>
      [sextetChar (x / 4), sextetChar (x % 4 * 16 + y / 16), sextetChar (y % 16 * 4), 61]
  | x :: y :: z :: rest =>
      sextetChar (x / 4) :: sextetChar (x % 4 * 16 + y / 16) ::
        sextetChar (y % 16 * 4 + z / 64) :: sextetChar (z % 64) :: btoa rest

/-- Drop the trailing `=` padding before decoding. -/
def stripPadding (s : List Nat) : List Nat :=
  (s.reverse.dropWhile (fun c => c == 61)).reverse

/-- Base64 decoding after padding removal: four characters to three bytes,
with two- and three-character final groups; `none` on invalid input. -/
def atobCore : List Nat → Option (List Nat)
  | [] => some []
  | [a, b] =>
    match charSextet a, charSextet b with
    | some s1, some s2 => some [s1 * 4 + s2 / 16]
    | _, _ => none
  | [a, b, c] =>
    match charSextet a, charSextet b, charSextet c with
    | some s1, some s2, some s3 =>
        some [s1 * 4 + s2 / 16, s2 % 16 * 16 + s3 / 4]
    | _, _, _ => none
  | a :: b :: c :: d :: rest =>
    match charSextet a, charSextet b, charSextet c, charSextet d, atobCore rest with
    | some s1, some s2, some s3, some s4, some tail =>
        some ((s1 * 4 + s2 / 16) :: (s2 % 16 * 16 + s3 / 4) :: (s3 % 4 * 64 + s4) :: tail)
    | _, _, _, _, _ => none
  | _ => none

/-- Browser `atob`: strip padding, then decode. -/
def atob (s : List Nat) : Option (List Nat) :=
  atobCore (stripPadding s)

/-- `arrayBufferToBase64` (lines 129-136): the `String.fromCharCode` loop
makes a binary string whose code units are the bytes, then `btoa`. -/
def arrayBufferToBase64 (buffer : List Nat) : List Nat :=
  btoa buffer

/-- `base64ToArrayBuffer` (lines 138-145): `atob`, then the `charCodeAt`
loop reads the code units back as bytes. -/
def base64ToArrayBuffer (base64 : List Nat) : Option (List Nat) :=
  atob base64

-- ## Concrete environments used by witnesses and counterexamples

/-- A Gemini response body carrying `t` at the expected field path. -/
def geminiSuccessBody (t : String) : Json :=
  .obj [("candidates", .arr [.obj [("content",
    .obj [("parts", .arr [.obj [("text", .str t)]])])]])]

/-- A Claude response body carrying `t` at the expected field path. -/
def claudeSuccessBody (t : String) : Json :=
  .obj [("content", .arr [.obj [("text", .str t)]])]

/-- An OpenAI response body carrying `t` at the expected field path. -/
def openaiSuccessBody (t : String) : Json :=
  .obj [("choices", .arr [.obj [("message", .obj [("content", .str t)])]])]

/-- A Gemini network that always answers 200 with payload `t`. -/
def okGeminiNet (t : String) : String → FetchOutcome :=
  fun _ => .response ⟨true, 200, geminiSuccessBody t, ""⟩

/-- A fully healthy environment: default provider, all stages succeed. -/
def happyEnv : Env :=
  { userInput := "a circular gauge 0-100", selectedModel := "gemini-3.0-pro",
    geminiKey := "gk", anthropicKey := "ak", openaiKey := "oak",
    confirmProceed := true,
    stage1Net := okGeminiNet "spec",
    claudeNet := .response ⟨true, 200, claudeSuccessBody "claude code", ""⟩,
    openaiNet := .response ⟨true, 200, openaiSuccessBody "gpt code", ""⟩,
    stage2GeminiNet := okGeminiNet "code",
    stage3Net := okGeminiNet "audit" }

/-- Stage 1 gets HTTP 200 with a body missing the expected field path
(the adapter then returns `undefined`), and Stage 2 succeeds. -/
def envUndefinedStage1 : Env :=
  { happyEnv with stage1Net := fun _ => .response ⟨true, 200, Json.obj [], "{}"⟩ }

/-- The default provider's key is absent; Stage 1's network always fails. -/
def envMissingGeminiKey : Env :=
  { happyEnv with
      geminiKey := ""
      stage1Net := fun _ => .throw "fetch failed" }

/-- Stages 1 and 2 succeed; Stage 3's network is down. -/
def envStage3Down : Env :=
  { happyEnv with stage3Net := fun _ => .throw "stage3 network down" }

/-- Stages 1 and 2 succeed; Stage 3 gets an HTTP 500 from Gemini. -/
def envStage3Http500 : Env :=
  { happyEnv with stage3Net := fun _ => .response ⟨false, 500, Json.null, "server error"⟩ }

/-- A Claude call rejected with HTTP 401 (invalid credential). -/
def claude401Response : FetchOutcome :=
  .response ⟨false, 401, Json.null, "invalid x-api-key"⟩

-- ## Helper lemmas about the Gemini adapter's retry recursion

theorem callGemini_eq (net : String → FetchOutcome) (m : String) :
    callGemini net m = match geminiAttempt net m with
      | .ok v => .ok v
      | .error e =>
        if m = FALLBACK_MODEL then .error e else callGemini net FALLBACK_MODEL := by
  rw [callGemini]
  rcases geminiAttempt net m with e | v <;> simp

theorem callGeminiAttempts_eq (net : String → FetchOutcome) (m : String) :
    callGeminiAttempts net m = match geminiAttempt net m with
      | .ok _ => 1
      | .error _ =>
        if m = FALLBACK_MODEL then 1 else 1 + callGeminiAttempts net FALLBACK_MODEL := by
  rw [callGeminiAttempts]
  rcases geminiAttempt net m with e | v <;> simp

theorem callGemini_fallback_case (net : String → FetchOutcome) :
    callGemini net FALLBACK_MODEL = geminiAttempt net FALLBACK_MODEL := by
  rw [callGemini_eq]
  rcases geminiAttempt net FALLBACK_MODEL with e | v <;> simp

theorem callGemini_retry (net : String → FetchOutcome) (m : String) (e : JsError)
    (hm : m ≠ FALLBACK_MODEL) (he : geminiAttempt net m = .error e) :
    callGemini net m = geminiAttempt net FALLBACK_MODEL := by
  rw [callGemini_eq, he]
  simp [hm, callGemini_fallback_case]

theorem callGeminiAttempts_fallback_case (net : String → FetchOutcome) :
    callGeminiAttempts net FALLBACK_MODEL = 1 := by
  rw [callGeminiAttempts_eq]
  rcases geminiAttempt net FALLBACK_MODEL with e | v <;> simp

theorem callGeminiAttempts_retry (net : String → FetchOutcome) (m : String) (e : JsError)
    (hm : m ≠ FALLBACK_MODEL) (he : geminiAttempt net m = .error e) :
    callGeminiAttempts net m = 2 := by
  rw [callGeminiAttempts_eq, he]
  simp [hm, callGeminiAttempts_fallback_case]

theorem callGeminiAttempts_le_two (net : String → FetchOutcome) (m : String) :
    callGeminiAttempts net m ≤ 2 := by
  rw [callGeminiAttempts_eq]
  rcases geminiAttempt net m with e | v
  · by_cases hm : m = FALLBACK_MODEL <;>
      simp [hm, callGeminiAttempts_fallback_case]
  · simp

theorem one_le_callGeminiAttempts (net : String → FetchOutcome) (m : String) :
    1 ≤ callGeminiAttempts net m := by
  rw [callGeminiAttempts_eq]
  rcases geminiAttempt net m with e | v
  · by_cases hm : m = FALLBACK_MODEL <;> simp [hm]
  · simp

theorem callGemini_ok_net (t m : String) :
    callGemini (okGeminiNet t) m = .ok (some t) := by
  rw [callGemini_eq]
  rfl

theorem callGemini_throw_net (msg m : String) :
    callGemini (fun _ => .throw msg) m = .error ⟨msg⟩ := by
  by_cases hm : m = FALLBACK_MODEL
  · subst hm
    rw [callGemini_fallback_case]
    rfl
  · rw [callGemini_retry _ _ ⟨msg⟩ hm (by rfl)]
    rfl

theorem callGemini_fail_net (r : HttpResponse) (m : String) (hr : r.ok = false) :
    callGemini (fun _ => .response r) m =
      .error ⟨"Gemini API failed: " ++ toString r.status⟩ := by
  have ha : geminiAttempt (fun _ => .response r) m =
      .error ⟨"Gemini API failed: " ++ toString r.status⟩ := by
    simp [geminiAttempt, hr]
  by_cases hm : m = FALLBACK_MODEL
  · subst hm
    rw [callGemini_fallback_case, ha]
  · rw [callGemini_retry _ _ _ hm ha]
    simp [geminiAttempt, hr]

-- ## Helper lemmas about the stage functions

theorem runPromptArchitect_ok (t : String) :
    runPromptArchitect (okGeminiNet t) = .ok (some t) := by
  unfold runPromptArchitect
  rw [callGemini_ok_net]

theorem runCodeDissector_ok (t : String) :
    runCodeDissector (okGeminiNet t) = .ok (some t) := by
  unfold runCodeDissector
  rw [callGemini_ok_net]

theorem runCodeDissector_throw (msg : String) :
    runCodeDissector (fun _ => .throw msg) = .error ⟨msg⟩ := by
  unfold runCodeDissector
  rw [callGemini_throw_net]

theorem stage2Primary_default (akey okey : String) (cnet onet : FetchOutcome)
    (gnet : String → FetchOutcome) :
    stage2Primary akey okey cnet onet gnet "gemini-3.0-pro" =
      callGemini gnet "gemini-3.0-pro-preview" := rfl

theorem runCodeGenerator_default_ok (akey okey : String) (cnet onet : FetchOutcome)
    (t : String) :
    runCodeGenerator akey okey cnet onet (okGeminiNet t) "gemini-3.0-pro" = .ok (some t) := by
  unfold runCodeGenerator
  rw [stage2Primary_default, callGemini_ok_net]

-- ## Claim C2

/-- Claim C2: for `callGemini` with a primary (non-fallback) model id, a
failure of the first attempt triggers exactly one retry with
`FALLBACK_MODEL` whose outcome — success or the unchanged second error —
is the call's result, for a total of exactly 2 attempts; and no call site
ever makes more than 2 attempts (the recursion terminates, being
well-founded by construction). -/
theorem callGemini_single_fallback_retry (net : String → FetchOutcome)
    (modelId : String) (e : JsError) (hm : modelId ≠ FALLBACK_MODEL)
    (he : geminiAttempt net modelId = .error e) :
    callGemini net modelId = geminiAttempt net FALLBACK_MODEL ∧
    callGeminiAttempts net modelId = 2 ∧
    ∀ (net2 : String → FetchOutcome) (m2 : String), callGeminiAttempts net2 m2 ≤ 2 :=
  ⟨callGemini_retry net modelId e hm he,
   callGeminiAttempts_retry net modelId e hm he,
   fun net2 m2 => callGeminiAttempts_le_two net2 m2⟩

/-- Witness for C2: a network that always throws, called with the Stage-1
primary model. -/
theorem callGemini_single_fallback_retry_witness :
    callGemini (fun _ => .throw "boom") PROMPT_ARCHITECT_MODEL =
      geminiAttempt (fun _ => .throw "boom") FALLBACK_MODEL ∧
    callGeminiAttempts (fun _ => .throw "boom") PROMPT_ARCHITECT_MODEL = 2 ∧
    callGeminiAttempts (fun _ => .throw "boom") FALLBACK_MODEL ≤ 2 := by
  have T := callGemini_single_fallback_retry (fun _ => .throw "boom")
    PROMPT_ARCHITECT_MODEL ⟨"boom"⟩ (by decide) (by rfl)
  exact ⟨T.1, T.2.1, T.2.2 (fun _ => .throw "boom") FALLBACK_MODEL⟩

-- ## Claim C5

/-- Claim C5: invoking `runThinkingPipeline` while a run is in progress
(`isRunning = true`) is a no-op returning the state unchanged. -/
theorem runThinkingPipeline_reentrancy (env : Env) (s : PipelineState)
    (h : s.isRunning = true) : runThinkingPipeline env s = s := by
  unfold runThinkingPipeline
  simp [h]

/-- Witness for C5: a mid-run state with Stage 1 output already assigned. -/
theorem runThinkingPipeline_reentrancy_witness :
    runThinkingPipeline happyEnv
      { step1Result := some "spec", step2Result := none, step3Result := none,
        currentStep := 0, isRunning := true } =
      { step1Result := some "spec", step2Result := none, step3Result := none,
        currentStep := 0, isRunning := true } :=
  runThinkingPipeline_reentrancy happyEnv _ rfl

-- ## Claim C9

/-- Claim C9: the optional-provider adapters, called with their key absent
(empty), throw the typed missing-key error and issue no fetch. -/
theorem optional_adapters_missing_key (anthropicApiKey openaiApiKey : String)
    (cnet onet : FetchOutcome) (hc : anthropicApiKey = "") (ho : openaiApiKey = "") :
    callClaude anthropicApiKey cnet = .error ⟨"Anthropic API key not found"⟩ ∧
    callClaudeAttempts anthropicApiKey = 0 ∧
    callOpenAI openaiApiKey onet = .error ⟨"OpenAI API key not found"⟩ ∧
    callOpenAIAttempts openaiApiKey = 0 := by
  subst hc
  subst ho
  exact ⟨rfl, rfl, rfl, rfl⟩

/-- Witness for C9 at empty keys and a healthy network. -/
theorem optional_adapters_missing_key_witness :
    callClaude "" happyEnv.claudeNet = .error ⟨"Anthropic API key not found"⟩ ∧
    callClaudeAttempts "" = 0 ∧
    callOpenAI "" happyEnv.openaiNet = .error ⟨"OpenAI API key not found"⟩ ∧
    callOpenAIAttempts "" = 0 :=
  optional_adapters_missing_key "" "" happyEnv.claudeNet happyEnv.openaiNet rfl rfl

-- ## Claim C3

/-- Claim C3: in Stage 2 with a non-default provider explicitly selected,
a failed primary attempt whose error message carries an authentication
marker (`authentication` or `401`) triggers exactly one cross-provider
fallback call to `callGemini` at `gemini-3.0-pro-preview`, whose success
becomes the stage output and whose failure becomes the combined
`All models failed` error; an error without the marker propagates
unchanged with no fallback call. -/
theorem runCodeGenerator_auth_fallback (akey okey : String)
    (cnet onet : FetchOutcome) (gnet : String → FetchOutcome)
    (selectedModel : String) (e : JsError)
    (_hsel : selectedModel = "claude-4.5-opus" ∨ selectedModel = "gpt-5.2-codex")
    (hp : stage2Primary akey okey cnet onet gnet selectedModel = .error e) :
    (isAuthError e = true →
      runCodeGeneratorFallbackCalls akey okey cnet onet gnet selectedModel = 1 ∧
      (∀ v, callGemini gnet "gemini-3.0-pro-preview" = .ok v →
        runCodeGenerator akey okey cnet onet gnet selectedModel = .ok v) ∧
      (∀ fe, callGemini gnet "gemini-3.0-pro-preview" = .error fe →
        runCodeGenerator akey okey cnet onet gnet selectedModel =
          .error ⟨"All models failed. Original error: " ++ e.message ++
            ". Fallback error: " ++ fe.message⟩)) ∧
    (isAuthError e = false →
      runCodeGenerator akey okey cnet onet gnet selectedModel = .error e ∧
      runCodeGeneratorFallbackCalls akey okey cnet onet gnet selectedModel = 0) := by
  constructor
  · intro ha
    refine ⟨?_, ?_, ?_⟩
    · unfold runCodeGeneratorFallbackCalls
      rw [hp]
      simp [ha]
    · intro v hv
      unfold runCodeGenerator
      rw [hp]
      simp [ha, hv]
    · intro fe hfe
      unfold runCodeGenerator
      rw [hp]
      simp [ha, hfe]
  · intro ha
    constructor
    · unfold runCodeGenerator
      rw [hp]
      simp [ha]
    · unfold runCodeGeneratorFallbackCalls
      rw [hp]
      simp [ha]

/-- Witness for C3: Claude selected, rejected with 401; the Gemini fallback
succeeds and its payload becomes the stage output. -/
theorem runCodeGenerator_auth_fallback_witness :
    runCodeGeneratorFallbackCalls "k" "" claude401Response (.throw "unused")
      (okGeminiNet "dart code") "claude-4.5-opus" = 1 ∧
    runCodeGenerator "k" "" claude401Response (.throw "unused")
      (okGeminiNet "dart code") "claude-4.5-opus" = .ok (some "dart code") := by
  have T := runCodeGenerator_auth_fallback "k" "" claude401Response (.throw "unused")
    (okGeminiNet "dart code") "claude-4.5-opus"
    ⟨"Claude API authentication failed. Please check your Anthropic API key in the .env file."⟩
    (Or.inl rfl) (by rfl)
  have ha : isAuthError
      ⟨"Claude API authentication failed. Please check your Anthropic API key in the .env file."⟩ = true := by
    decide
  exact ⟨(T.1 ha).1,
    (T.1 ha).2.1 (some "dart code") (callGemini_ok_net "dart code" "gemini-3.0-pro-preview")⟩

-- ## Claim C6

/-- Claim C6: when Stages 1 and 2 complete with values and Stage 3 then
throws, the terminal state keeps `step1Result`/`step2Result` exactly as
assigned by Stages 1 and 2, and `step3Result` stays null. -/
theorem stage3_failure_preserves_prior_outputs (env : Env) (s : PipelineState)
    (a b : String) (e : JsError)
    (hrun : s.isRunning = false)
    (hin : jsTrim env.userInput ≠ [])
    (hgate : ¬ imageGateAborts env)
    (h1 : runPromptArchitect env.stage1Net = .ok (some a))
    (h2 : runCodeGenerator env.anthropicKey env.openaiKey env.claudeNet
      env.openaiNet env.stage2GeminiNet env.selectedModel = .ok (some b))
    (h3 : runCodeDissector env.stage3Net = .error e) :
    (runThinkingPipeline env s).step1Result = some a ∧
    (runThinkingPipeline env s).step2Result = some b ∧
    (runThinkingPipeline env s).step3Result = none := by
  unfold runThinkingPipeline
  simp [hrun, hin, hgate, h1, h2, h3]

/-- Witness for C6: a run whose Stage 3 network is down. -/
theorem stage3_failure_preserves_prior_outputs_witness :
    (runThinkingPipeline envStage3Down initialPipelineState).step1Result = some "spec" ∧
    (runThinkingPipeline envStage3Down initialPipelineState).step2Result = some "code" ∧
    (runThinkingPipeline envStage3Down initialPipelineState).step3Result = none := by
  have h1 : runPromptArchitect envStage3Down.stage1Net = .ok (some "spec") :=
    runPromptArchitect_ok "spec"
  have h2 : runCodeGenerator envStage3Down.anthropicKey envStage3Down.openaiKey
      envStage3Down.claudeNet envStage3Down.openaiNet envStage3Down.stage2GeminiNet
      envStage3Down.selectedModel = .ok (some "code") :=
    runCodeGenerator_default_ok _ _ _ _ "code"
  have h3 : runCodeDissector envStage3Down.stage3Net = .error ⟨"stage3 network down"⟩ :=
    runCodeDissector_throw "stage3 network down"
  exact stage3_failure_preserves_prior_outputs envStage3Down initialPipelineState
    "spec" "code" ⟨"stage3 network down"⟩ rfl (by decide) (by decide) h1 h2 h3

-- ## Claim C1

/-- Claim C1 counterexample: Stage 1 gets an HTTP 200 whose body misses the
expected field path, so the adapter returns `undefined` and the run
continues; Stage 2 succeeds, leaving a terminal state whose `step2Result`
is non-null while `step1Result` is null. -/
theorem pipeline_output_ordering_counterexample :
    (runThinkingPipeline envUndefinedStage1 initialPipelineState).step1Result = none ∧
    (runThinkingPipeline envUndefinedStage1 initialPipelineState).step2Result = some "code" := by
  have h1 : runPromptArchitect envUndefinedStage1.stage1Net = .ok none := by
    unfold runPromptArchitect
    rw [callGemini_eq]
    rfl
  have h2 : runCodeGenerator envUndefinedStage1.anthropicKey envUndefinedStage1.openaiKey
      envUndefinedStage1.claudeNet envUndefinedStage1.openaiNet
      envUndefinedStage1.stage2GeminiNet envUndefinedStage1.selectedModel =
      .ok (some "code") :=
    runCodeGenerator_default_ok _ _ _ _ "code"
  have h3 : runCodeDissector envUndefinedStage1.stage3Net = .ok (some "audit") :=
    runCodeDissector_ok "audit"
  have hrun : initialPipelineState.isRunning = false := rfl
  have hin : ¬ (jsTrim envUndefinedStage1.userInput = []) := by decide
  have hgate : ¬ imageGateAborts envUndefinedStage1 := by decide
  unfold runThinkingPipeline
  simp [hrun, hin, hgate, h1, h2, h3]

/-- Claim C1 (amended): the ordering invariant for terminal states of a
started run holds provided neither Stage 1 nor Stage 2 completes with the
`undefined` value (i.e. their adapters never return `.ok none`); without
that proviso the invariant fails, as the counterexample shows. -/
theorem pipeline_output_ordering (env : Env) (s : PipelineState)
    (hrun : s.isRunning = false)
    (hin : jsTrim env.userInput ≠ [])
    (hgate : ¬ imageGateAborts env)
    (h1 : runPromptArchitect env.stage1Net ≠ .ok none)
    (h2 : runCodeGenerator env.anthropicKey env.openaiKey env.claudeNet
      env.openaiNet env.stage2GeminiNet env.selectedModel ≠ .ok none) :
    ((runThinkingPipeline env s).step2Result ≠ none →
      (runThinkingPipeline env s).step1Result ≠ none) ∧
    ((runThinkingPipeline env s).step3Result ≠ none →
      (runThinkingPipeline env s).step2Result ≠ none) := by
  unfold runThinkingPipeline
  rcases hA : runPromptArchitect env.stage1Net with eA | rA
  · simp [hrun, hin, hgate, hA]
  · have hrA : rA ≠ none := by
      intro hn
      exact h1 (by rw [hA, hn])
    rcases hB : runCodeGenerator env.anthropicKey env.openaiKey env.claudeNet
        env.openaiNet env.stage2GeminiNet env.selectedModel with eB | rB
    · simp [hrun, hin, hgate, hA, hB]
    · have hrB : rB ≠ none := by
        intro hn
        exact h2 (by rw [hB, hn])
      rcases hC : runCodeDissector env.stage3Net with eC | rC
      · simp [hrun, hin, hgate, hA, hB, hC, hrA, hrB]
      · simp [hrun, hin, hgate, hA, hB, hC, hrA, hrB]

/-- Witness for the amended C1 at a fully healthy run. -/
theorem pipeline_output_ordering_witness :
    ((runThinkingPipeline happyEnv initialPipelineState).step2Result ≠ none →
      (runThinkingPipeline happyEnv initialPipelineState).step1Result ≠ none) ∧
    ((runThinkingPipeline happyEnv initialPipelineState).step3Result ≠ none →
      (runThinkingPipeline happyEnv initialPipelineState).step2Result ≠ none) := by
  have h1 : runPromptArchitect happyEnv.stage1Net ≠ .ok none := by
    rw [show runPromptArchitect happyEnv.stage1Net = .ok (some "spec") from
      runPromptArchitect_ok "spec"]
    simp
  have h2 : runCodeGenerator happyEnv.anthropicKey happyEnv.openaiKey happyEnv.claudeNet
      happyEnv.openaiNet happyEnv.stage2GeminiNet happyEnv.selectedModel ≠ .ok none := by
    rw [show runCodeGenerator happyEnv.anthropicKey happyEnv.openaiKey happyEnv.claudeNet
        happyEnv.openaiNet happyEnv.stage2GeminiNet happyEnv.selectedModel = .ok (some "code") from
      runCodeGenerator_default_ok _ _ _ _ "code"]
    simp
  exact pipeline_output_ordering happyEnv initialPipelineState rfl (by decide) (by decide) h1 h2

-- ## Claim C4

/-- Claim C4 counterexample: the Gemini key is absent, yet the run starts
and Stage 1 issues 2 network attempts (primary + model fallback); there is
no missing-credential short-circuit before the stages. -/
theorem missing_gemini_key_still_runs_counterexample :
    envMissingGeminiKey.geminiKey = "" ∧
    runThinkingPipelineStage1Attempts envMissingGeminiKey initialPipelineState = 2 := by
  refine ⟨rfl, ?_⟩
  have hrun : initialPipelineState.isRunning = false := rfl
  have hin : ¬ (jsTrim envMissingGeminiKey.userInput = []) := by decide
  have hgate : ¬ imageGateAborts envMissingGeminiKey := by decide
  unfold runThinkingPipelineStage1Attempts
  rw [if_neg (by simp [hrun]), if_neg hin, if_neg hgate]
  exact callGeminiAttempts_retry _ _ ⟨"fetch failed"⟩ (by decide) (by rfl)

/-- Claim C4 (amended): when the default provider's key is absent,
`checkConnection` reports `false`, but `runThinkingPipeline` performs no
such check: any started run still executes Stage 1 and issues at least one
network attempt (the empty key only rides along in the request header). -/
theorem pipeline_has_no_credential_gate (env : Env) (s : PipelineState)
    (hkey : env.geminiKey = "")
    (hrun : s.isRunning = false)
    (hin : jsTrim env.userInput ≠ [])
    (hgate : ¬ imageGateAborts env) :
    checkConnection env.geminiKey = false ∧
    1 ≤ runThinkingPipelineStage1Attempts env s := by
  constructor
  · rw [hkey]
    rfl
  · unfold runThinkingPipelineStage1Attempts
    simp [hrun, hin, hgate, one_le_callGeminiAttempts]

/-- Witness for the amended C4. -/
theorem pipeline_has_no_credential_gate_witness :
    checkConnection envMissingGeminiKey.geminiKey = false ∧
    1 ≤ runThinkingPipelineStage1Attempts envMissingGeminiKey initialPipelineState :=
  pipeline_has_no_credential_gate envMissingGeminiKey initialPipelineState
    rfl rfl (by decide) (by decide)

-- ## Claim C7

/-- Claim C7 counterexample: an HTTP 200 whose body misses the expected
field path makes each adapter return the non-error value `undefined`
(`.ok none`) instead of failing. -/
theorem adapters_return_undefined_on_missing_path :
    callGemini (fun _ => .response ⟨true, 200, Json.obj [], "{}"⟩)
      PROMPT_ARCHITECT_MODEL = .ok none ∧
    callClaude "k" (.response ⟨true, 200, Json.obj [], "{}"⟩) = .ok none ∧
    callOpenAI "k" (.response ⟨true, 200, Json.obj [], "{}"⟩) = .ok none := by
  refine ⟨?_, rfl, rfl⟩
  rw [callGemini_eq]
  rfl

/-- Claim C7 (amended): on an HTTP success each adapter returns exactly the
payload extracted from the provider's nested response structure; when the
field path is absent that extraction is `none`, so the adapter returns
`undefined` as a non-error value rather than failing. -/
theorem adapters_extract_first_payload
    (gnet : String → FetchOutcome) (m : String) (rg : HttpResponse)
    (hgn : gnet m = .response rg) (hgok : rg.ok = true)
    (akey : String) (hak : ¬ akey = "") (rc : HttpResponse) (hcok : rc.ok = true)
    (okey : String) (hok : ¬ okey = "") (ro : HttpResponse) (hook : ro.ok = true) :
    callGemini gnet m = .ok (geminiExtract rg.body) ∧
    callClaude akey (.response rc) = .ok (claudeExtract rc.body) ∧
    callOpenAI okey (.response ro) = .ok (openaiExtract ro.body) := by
  refine ⟨?_, ?_, ?_⟩
  · rw [callGemini_eq]
    simp [geminiAttempt, hgn, hgok]
  · simp [callClaude, hak, hcok]
  · simp [callOpenAI, hok, hook]

/-- Witness for the amended C7 at healthy responses. -/
theorem adapters_extract_first_payload_witness :
    callGemini (okGeminiNet "spec") PROMPT_ARCHITECT_MODEL =
      .ok (geminiExtract (geminiSuccessBody "spec")) ∧
    callClaude "k" (.response ⟨true, 200, claudeSuccessBody "cc", ""⟩) =
      .ok (claudeExtract (claudeSuccessBody "cc")) ∧
    callOpenAI "k" (.response ⟨true, 200, openaiSuccessBody "oc", ""⟩) =
      .ok (openaiExtract (openaiSuccessBody "oc")) :=
  adapters_extract_first_payload (okGeminiNet "spec") PROMPT_ARCHITECT_MODEL
    ⟨true, 200, geminiSuccessBody "spec", ""⟩ rfl rfl
    "k" (by decide) ⟨true, 200, claudeSuccessBody "cc", ""⟩ rfl
    "k" (by decide) ⟨true, 200, openaiSuccessBody "oc", ""⟩ rfl

-- ## Claim C8

/-- Claim C8 (code-bug exhibit): Stages 1-2 succeed and Stage 3 fails with
HTTP 500 on both Gemini attempts; the stage functions rethrow the adapter
error untagged (`Gemini API failed: 500`), which matches none of the
orchestrator's attribution markers, so the failure is attributed to the
default step 1 rather than step 3. -/
theorem stage3_error_attributed_to_step1 :
    runThinkingPipelineErrorStep envStage3Http500 initialPipelineState = some 1 ∧
    determineErrorStep "Gemini API failed: 500" = 1 := by
  have h1 : runPromptArchitect envStage3Http500.stage1Net = .ok (some "spec") :=
    runPromptArchitect_ok "spec"
  have h2 : runCodeGenerator envStage3Http500.anthropicKey envStage3Http500.openaiKey
      envStage3Http500.claudeNet envStage3Http500.openaiNet
      envStage3Http500.stage2GeminiNet envStage3Http500.selectedModel =
      .ok (some "code") :=
    runCodeGenerator_default_ok _ _ _ _ "code"
  have h3 : runCodeDissector envStage3Http500.stage3Net =
      .error ⟨"Gemini API failed: " ++ toString (500 : Nat)⟩ :=
    callGemini_fail_net ⟨false, 500, Json.null, "server error"⟩ CODE_DISSECTOR_MODEL rfl
  have hrun : initialPipelineState.isRunning = false := rfl
  have hin : ¬ (jsTrim envStage3Http500.userInput = []) := by decide
  have hgate : ¬ imageGateAborts envStage3Http500 := by decide
  constructor
  · unfold runThinkingPipelineErrorStep
    simp [hrun, hin, hgate, h1, h2, h3]
    decide
  · decide

-- ## Base64 round-trip lemmas

theorem charSextet_sextetChar (n : Nat) (h : n < 64) :
    charSextet (sextetChar n) = some n := by
  unfold sextetChar charSextet
  split_ifs <;> first | omega | (simp only [Option.some.injEq]; omega)

theorem sextetChar_ne_pad (n : Nat) : sextetChar n ≠ 61 := by
  unfold sextetChar
  split_ifs <;> omega

theorem sextetChar_beq_pad (n : Nat) : (sextetChar n == 61) = false := by
  simp [sextetChar_ne_pad n]

theorem stripPadding_append (l t : List Nat) (h : stripPadding t ≠ []) :
    stripPadding (l ++ t) = l ++ stripPadding t := by
  unfold stripPadding at h ⊢
  have ht : (t.reverse.dropWhile (fun c => c == 61)).isEmpty = false := by
    rcases hE : t.reverse.dropWhile (fun c => c == 61) with _ | ⟨a, r⟩
    · exact absurd (by rw [hE]; rfl) h
    · rfl
  rw [List.reverse_append, List.dropWhile_append]
  simp [ht]

theorem stripPadding_cons_ne (a : Nat) (t : List Nat) (ha : (a == 61) = false) :
    stripPadding (a :: t) ≠ [] := by
  unfold stripPadding
  rw [show (a :: t).reverse = t.reverse ++ [a] from by simp, List.dropWhile_append]
  by_cases hE : (t.reverse.dropWhile (fun c => c == 61)).isEmpty = true
  · simp [hE, List.dropWhile, ha]
  · simp [hE]

theorem btoa_head (r : Nat) (rs : List Nat) :
    ∃ t, btoa (r :: rs) = sextetChar (r / 4) :: t := by
  rcases rs with _ | ⟨y, _ | ⟨z, rest⟩⟩
  · exact ⟨_, rfl⟩
  · exact ⟨_, rfl⟩
  · exact ⟨_, rfl⟩

theorem stripPadding_btoa_cons_ne (r : Nat) (rs : List Nat) :
    stripPadding (btoa (r :: rs)) ≠ [] := by
  obtain ⟨t, ht⟩ := btoa_head r rs
  rw [ht]
  exact stripPadding_cons_ne _ _ (sextetChar_beq_pad _)

theorem atobCore_stripPadding_btoa :
    ∀ (b : List Nat), (∀ x ∈ b, x < 256) → atobCore (stripPadding (btoa b)) = some b
  | [], _ => by simp [btoa, stripPadding, atobCore]
  | [x], h => by
      have hx : x < 256 := h x (by simp)
      have h1 : charSextet (sextetChar (x / 4)) = some (x / 4) :=
        charSextet_sextetChar _ (by omega)
      have h2 : charSextet (sextetChar (x % 4 * 16)) = some (x % 4 * 16) :=
        charSextet_sextetChar _ (by omega)
      have hs : stripPadding [sextetChar (x / 4), sextetChar (x % 4 * 16), 61, 61] =
          [sextetChar (x / 4), sextetChar (x % 4 * 16)] := by
        unfold stripPadding
        simp [List.dropWhile, sextetChar_beq_pad]
      show atobCore (stripPadding [sextetChar (x / 4), sextetChar (x % 4 * 16), 61, 61]) =
        some [x]
      rw [hs]
      simp only [atobCore, h1, h2, Option.some.injEq, List.cons.injEq, and_true]
      omega
  | [x, y], h => by
      have hx : x < 256 := h x (by simp)
      have hy : y < 256 := h y (by simp)
      have h1 : charSextet (sextetChar (x / 4)) = some (x / 4) :=
        charSextet_sextetChar _ (by omega)
      have h2 : charSextet (sextetChar (x % 4 * 16 + y / 16)) = some (x % 4 * 16 + y / 16) :=
        charSextet_sextetChar _ (by omega)
      have h3 : charSextet (sextetChar (y % 16 * 4)) = some (y % 16 * 4) :=
        charSextet_sextetChar _ (by omega)
      have hs : stripPadding [sextetChar (x / 4), sextetChar (x % 4 * 16 + y / 16),
          sextetChar (y % 16 * 4), 61] =
          [sextetChar (x / 4), sextetChar (x % 4 * 16 + y / 16), sextetChar (y % 16 * 4)] := by
        unfold stripPadding
        simp [List.dropWhile, sextetChar_beq_pad]
      show atobCore (stripPadding [sextetChar (x / 4), sextetChar (x % 4 * 16 + y / 16),
        sextetChar (y % 16 * 4), 61]) = some [x, y]
      rw [hs]
      simp only [atobCore, h1, h2, h3, Option.some.injEq, List.cons.injEq, and_true]
      constructor
      · omega
      · omega
  | x :: y :: z :: rest, h => by
      have hx : x < 256 := h x (by simp)
      have hy : y < 256 := h y (by simp)
      have hz : z < 256 := h z (by simp)
      have IH := atobCore_stripPadding_btoa rest (fun u hu => h u (by simp [hu]))
      have h1 : charSextet (sextetChar (x / 4)) = some (x / 4) :=
        charSextet_sextetChar _ (by omega)
      have h2 : charSextet (sextetChar (x % 4 * 16 + y / 16)) = some (x % 4 * 16 + y / 16) :=
        charSextet_sextetChar _ (by omega)
      have h3 : charSextet (sextetChar (y % 16 * 4 + z / 64)) = some (y % 16 * 4 + z / 64) :=
        charSextet_sextetChar _ (by omega)
      have h4 : charSextet (sextetChar (z % 64)) = some (z % 64) :=
        charSextet_sextetChar _ (by omega)
      rcases rest with _ | ⟨r, rs⟩
      · have hs : stripPadding [sextetChar (x / 4), sextetChar (x % 4 * 16 + y / 16),
            sextetChar (y % 16 * 4 + z / 64), sextetChar (z % 64)] =
            [sextetChar (x / 4), sextetChar (x % 4 * 16 + y / 16),
             sextetChar (y % 16 * 4 + z / 64), sextetChar (z % 64)] := by
          unfold stripPadding
          simp [List.dropWhile, sextetChar_beq_pad]
        show atobCore (stripPadding [sextetChar (x / 4), sextetChar (x % 4 * 16 + y / 16),
          sextetChar (y % 16 * 4 + z / 64), sextetChar (z % 64)]) = some [x, y, z]
        rw [hs]
        simp only [atobCore, h1, h2, h3, h4, Option.some.injEq, List.cons.injEq, and_true]
        refine ⟨by omega, by omega, by omega⟩
      · have hb : btoa (x :: y :: z :: r :: rs) =
            [sextetChar (x / 4), sextetChar (x % 4 * 16 + y / 16),
             sextetChar (y % 16 * 4 + z / 64), sextetChar (z % 64)] ++ btoa (r :: rs) := rfl
        rw [hb, stripPadding_append _ _ (stripPadding_btoa_cons_ne r rs)]
        simp only [List.cons_append, List.nil_append]
        simp only [atobCore, h1, h2, h3, h4, IH, Option.some.injEq, List.cons.injEq]
        refine ⟨by omega, by omega, by omega, trivial⟩

-- ## Claim C10

/-- Claim C10: for every byte array (all entries < 256),
`base64ToArrayBuffer (arrayBufferToBase64 b)` recovers exactly `b`: the
credential-storage base64 helpers round-trip. -/
theorem base64_roundtrip (b : List Nat) (h : ∀ x ∈ b, x < 256) :
    base64ToArrayBuffer (arrayBufferToBase64 b) = some b :=
  atobCore_stripPadding_btoa b h

/-- Witness for C10 at a concrete byte array. -/
theorem base64_roundtrip_witness :
    (∀ x ∈ [0, 255, 77, 1, 128], x < 256) ∧
    base64ToArrayBuffer (arrayBufferToBase64 [0, 255, 77, 1, 128]) =
      some [0, 255, 77, 1, 128] :=
  ⟨by decide, base64_roundtrip [0, 255, 77, 1, 128] (by decide)⟩
